import Mathlib

/-!
# Verification of the WebAR application core (src/app.js)

Shallow embedding of the AR placement state machine of the WebAR viewer:
session lifecycle, asynchronous hit-test source acquisition, per-frame
reticle sampling, placement commit (onSelect), and splat asset loading
(loadSplatModel).

Modelling decisions, all taken from the source:
* The module-level mutable variables of app.js (hitTestSource,
  hitTestSourceRequested, splat, reticle, controls) become fields of one
  record `AppState`.
* The external WebXR/THREE collaborators are modelled by the data the code
  reads from them: a hit result is modelled by the pose matrix the code
  extracts from it; `Matrix4` is modelled by the (position, quaternion,
  scale) triple that `decompose` and `fromArray` transport; coordinates
  are integers, which suffices for the concrete values the claims use.
* The asynchronous acquisition chain started in `render`
  (requestReferenceSpace then requestHitTestSource, resolving by the
  assignment `hitTestSource = source`) is modelled by a `pending` list of
  outstanding chains, tagged with the session that issued them, and an
  environment event `resolve` that delivers one of them at an arbitrary
  later time.  The resolution callback in the code stores the source
  unconditionally, and so does `resolveHit`.
* For the single-live-asset property the model tracks instance identities:
  a counter `nextAssetId` names each constructed `LumaSplatsThree`
  instance, `scene` holds the ids currently attached to the scene, and
  `disposed` holds the ids on which `scene.remove` and `dispose()` were
  called.
* `sessionId` counts session starts, so that a hit-test source can be
  traced back to the session whose chain produced it; `inAR` mirrors the
  active-session state toggled by the sessionstart/sessionend handlers.
-/

namespace WebAR

/-- A 3-component vector (THREE.Vector3), integer coordinates. -/
structure V3 where
  x : Int
  y : Int
  z : Int
deriving DecidableEq

/-- A quaternion (THREE.Quaternion), integer components. -/
structure Quat where
  qx : Int
  qy : Int
  qz : Int
  qw : Int
deriving DecidableEq

/-- The identity quaternion, the state of a freshly constructed object. -/
def idQuat : Quat := ⟨0, 0, 0, 1⟩

/-- A THREE.Matrix4 as the code uses it: built by `fromArray` from an XR hit
pose and read back by `decompose` into position, quaternion and scale.  We
model it by exactly that data. -/
structure PoseMatrix where
  pos : V3
  quat : Quat
  scl : V3
deriving DecidableEq

/-- `matrix.decompose(position, quaternion, scale)`. -/
def decompose (m : PoseMatrix) : V3 × Quat × V3 := (m.pos, m.quat, m.scl)

/-- The identity matrix: initial value of `reticle.matrix`. -/
def idMatrix : PoseMatrix := ⟨⟨0, 0, 0⟩, idQuat, ⟨1, 1, 1⟩⟩

/-- One loaded splat asset: a `LumaSplatsThree` instance as app.js mutates
it.  `id` is the instance identity (used to track attachment and disposal),
`source` the URL the instance was constructed from. -/
structure Splat where
  id : Nat
  source : String
  position : V3
  scale : V3
  quaternion : Quat
  visible : Bool
deriving DecidableEq

/-- The whole mutable state of app.js that the claims are about. -/
structure AppState where
  /-- `hitTestSource` global: the stored source, tagged by the id of the
  session whose acquisition chain produced it. -/
  hitTestSource : Option Nat
  /-- `hitTestSourceRequested` global. -/
  hitTestSourceRequested : Bool
  /-- Outstanding acquisition chains (promises not yet resolved), each
  tagged with the id of the session that issued it. -/
  pending : List Nat
  /-- Number of session starts so far; identifies the current session. -/
  sessionId : Nat
  /-- Whether an AR session is active (toggled by sessionstart/sessionend). -/
  inAR : Bool
  /-- `controls.enabled`. -/
  controlsEnabled : Bool
  /-- `reticle.visible`. -/
  reticleVisible : Bool
  /-- `reticle.matrix`. -/
  reticleMatrix : PoseMatrix
  /-- `splat` global: the current asset instance, if any. -/
  splat : Option Splat
  /-- `currentSplatURL` global. -/
  currentSplatURL : String
  /-- Ids of asset instances currently attached to the scene. -/
  scene : List Nat
  /-- Ids of asset instances that were removed from the scene and disposed. -/
  disposed : List Nat
  /-- Next fresh asset instance id. -/
  nextAssetId : Nat
  /-- Number of hit-test source request chains issued so far. -/
  requestCount : Nat
deriving DecidableEq

/-- The default model URL of app.js. -/
def DEFAULT_URL : String :=
  "https://assets.lumalabs.ai/m/d557c12c-965f-4f74-a187-436d3771c1b5/659174391852_Fisheye_Initial_cp.spz"

/-- `loadSplatModel(url)`: dispose the existing splat (remove from scene,
`dispose()`, null the variable) before constructing the replacement with
position (0,1,0), scale (1,1,1) and the constructor-default visible = true,
then attach the replacement to the scene. -/
def loadSplatModel (url : String) (s : AppState) : AppState :=
  let s1 := match s.splat with
    | some sp =>
      { s with scene := s.scene.erase sp.id,
               disposed := s.disposed ++ [sp.id],
               splat := none }
    | none => s
  let newSp : Splat :=
    { id := s1.nextAssetId, source := url, position := ⟨0, 1, 0⟩,
      scale := ⟨1, 1, 1⟩, quaternion := idQuat, visible := true }
  { s1 with splat := some newSp,
            scene := s1.scene ++ [newSp.id],
            nextAssetId := s1.nextAssetId + 1,
            currentSplatURL := url }

/-- The splat mutation of the sessionstart handler: `splat.visible = false`. -/
def hiddenSplat (sp : Splat) : Splat := { sp with visible := false }

/-- The splat mutation of the sessionend handler: visible again, default
position and scale. -/
def resetSplat (sp : Splat) : Splat :=
  { sp with visible := true, position := ⟨0, 1, 0⟩, scale := ⟨1, 1, 1⟩ }

/-- The sessionstart handler: disable orbit controls, hide the splat, and
(model bookkeeping) begin a new session with a fresh id. -/
def sessionStart (s : AppState) : AppState :=
  { s with inAR := true,
           controlsEnabled := false,
           splat := s.splat.map hiddenSplat,
           sessionId := s.sessionId + 1 }

/-- The sessionend handler, together with the per-session end listener
registered in `render` (their effects on the modelled state coincide on the
shared fields): enable orbit controls, reset the splat to visible with
default position and scale, and clear `hitTestSource` and
`hitTestSourceRequested`.  Note it does not touch the reticle, and it does
not cancel a still-pending acquisition chain. -/
def sessionEnd (s : AppState) : AppState :=
  { s with inAR := false,
           controlsEnabled := true,
           splat := s.splat.map resetSplat,
           hitTestSource := none,
           hitTestSourceRequested := false }

/-- The splat mutation done inside the select handler: set visible and
copy the position component of the decomposed reticle matrix; the
quaternion copy is commented out in the source, so the orientation is
untouched. -/
def placedSplat (m : PoseMatrix) (sp : Splat) : Splat :=
  { sp with visible := true, position := (decompose m).1 }

/-- `onSelect()`: if the reticle is visible and a splat is loaded, place
the splat at the reticle; otherwise do nothing. -/
def onSelect (s : AppState) : AppState :=
  match s.reticleVisible, s.splat with
  | true, some sp => { s with splat := some (placedSplat s.reticleMatrix sp) }
  | _, _ => s

/-- First block of the AR branch of `render`: if no acquisition has been
requested, issue the asynchronous chain (a new pending entry tagged with
the current session) and synchronously set the requested flag. -/
def renderRequest (s : AppState) : AppState :=
  if s.hitTestSourceRequested = false then
    { s with pending := s.pending ++ [s.sessionId],
             requestCount := s.requestCount + 1,
             hitTestSourceRequested := true }
  else s

/-- Second block of the AR branch of `render`: if a source is stored, query
this frame's hit-test results; on at least one result show the reticle at
the first result's pose, otherwise hide it.  With no source, the reticle is
not touched at all. -/
def renderSample (hits : List PoseMatrix) (s : AppState) : AppState :=
  match s.hitTestSource with
  | none => s
  | some _ =>
    match hits with
    | [] => { s with reticleVisible := false }
    | h :: _ => { s with reticleVisible := true, reticleMatrix := h }

/-- The AR branch of `render(timestamp, frame)` for one frame whose
hit-test results (for the stored source) are `hits`. -/
def render (hits : List PoseMatrix) (s : AppState) : AppState :=
  renderSample hits (renderRequest s)

/-- Resolution of a pending acquisition chain `c`: the callback
`hitTestSource = source` stores the source unconditionally; the chain is no
longer pending.  A `c` that is not pending cannot resolve (no-op). -/
def resolveHit (c : Nat) (s : AppState) : AppState :=
  if c ∈ s.pending then
    { s with hitTestSource := some c, pending := s.pending.erase c }
  else s

/-- The events that drive the application. -/
inductive Event where
  /-- An AR frame callback (`render` with a non-null `frame`), carrying the
  frame's hit-test results for the stored source. -/
  | frame (hits : List PoseMatrix)
  /-- A non-AR frame callback: only `controls.update()`, no modelled state
  change. -/
  | inspectFrame
  /-- The sessionstart notification. -/
  | sessionStart
  /-- The sessionend notification. -/
  | sessionEnd
  /-- The select trigger from the XR controller. -/
  | select
  /-- A UI-driven `loadSplatModel(url)` call. -/
  | load (url : String)
  /-- Asynchronous resolution of pending acquisition chain `c`. -/
  | resolve (c : Nat)

/-- One step of the application on one event. -/
def step (s : AppState) (e : Event) : AppState :=
  match e with
  | .frame hits => render hits s
  | .inspectFrame => s
  | .sessionStart => sessionStart s
  | .sessionEnd => sessionEnd s
  | .select => onSelect s
  | .load url => loadSplatModel url s
  | .resolve c => resolveHit c s

/-- Run a sequence of events. -/
def run (s : AppState) (es : List Event) : AppState := es.foldl step s

/-- The state after module top level but before `init()` has loaded any
asset: all globals at their declared defaults, reticle fresh and hidden. -/
def preInit : AppState :=
  { hitTestSource := none,
    hitTestSourceRequested := false,
    pending := [],
    sessionId := 0,
    inAR := false,
    controlsEnabled := true,
    reticleVisible := false,
    reticleMatrix := idMatrix,
    splat := none,
    currentSplatURL := DEFAULT_URL,
    scene := [],
    disposed := [],
    nextAssetId := 0,
    requestCount := 0 }

/-- The state after `init()`: `loadSplatModel(DEFAULT_URL)` has run. -/
def initState : AppState := loadSplatModel DEFAULT_URL preInit

theorem run_cons (s : AppState) (e : Event) (es : List Event) :
    run s (e :: es) = run (step s e) es := rfl

theorem run_nil (s : AppState) : run s [] = s := rfl

/-- A sample hit pose used in concrete traces. -/
def demoPose : PoseMatrix := ⟨⟨0, 0, -1⟩, idQuat, ⟨1, 1, 1⟩⟩

/-- `renderRequest` touches only the pending list, the request counter and
the requested flag. -/
theorem renderRequest_fields (s : AppState) :
    (renderRequest s).hitTestSource = s.hitTestSource ∧
    (renderRequest s).reticleVisible = s.reticleVisible ∧
    (renderRequest s).reticleMatrix = s.reticleMatrix ∧
    (renderRequest s).splat = s.splat ∧
    (renderRequest s).scene = s.scene ∧
    (renderRequest s).disposed = s.disposed ∧
    (renderRequest s).nextAssetId = s.nextAssetId := by
  unfold renderRequest
  split <;> exact ⟨rfl, rfl, rfl, rfl, rfl, rfl, rfl⟩

/-- `renderSample` touches only the reticle. -/
theorem renderSample_fields (hits : List PoseMatrix) (s : AppState) :
    (renderSample hits s).hitTestSource = s.hitTestSource ∧
    (renderSample hits s).hitTestSourceRequested = s.hitTestSourceRequested ∧
    (renderSample hits s).requestCount = s.requestCount ∧
    (renderSample hits s).splat = s.splat ∧
    (renderSample hits s).scene = s.scene ∧
    (renderSample hits s).disposed = s.disposed ∧
    (renderSample hits s).nextAssetId = s.nextAssetId := by
  unfold renderSample
  split
  · exact ⟨rfl, rfl, rfl, rfl, rfl, rfl, rfl⟩
  · cases hits <;> exact ⟨rfl, rfl, rfl, rfl, rfl, rfl, rfl⟩

/-- With no stored source, `renderSample` is the identity. -/
theorem renderSample_no_source (hits : List PoseMatrix) (s : AppState)
    (h : s.hitTestSource = none) : renderSample hits s = s := by
  unfold renderSample
  rw [h]

/-- With no stored source, a frame only runs the request block. -/
theorem render_no_source (hits : List PoseMatrix) (s : AppState)
    (h : s.hitTestSource = none) : render hits s = renderRequest s := by
  unfold render
  exact renderSample_no_source hits (renderRequest s)
    ((renderRequest_fields s).1.trans h)

/-- Claim C4: in every state with a visible reticle and a loaded asset,
the select trigger sets the asset visible and copies the position component
of the decomposed reticle matrix into the asset position, while the asset
orientation (quaternion) is left unchanged. -/
theorem select_commits_placement (s : AppState) (sp : Splat)
    (h1 : s.reticleVisible = true) (h2 : s.splat = some sp) :
    (onSelect s).splat = some (placedSplat s.reticleMatrix sp) ∧
    (onSelect s).splat.map Splat.visible = some true ∧
    (onSelect s).splat.map Splat.position = some (decompose s.reticleMatrix).1 ∧
    (onSelect s).splat.map Splat.quaternion = some sp.quaternion := by
  unfold onSelect
  rw [h1, h2]
  exact ⟨rfl, rfl, rfl, rfl⟩

/-- Asset and state used to instantiate the placement-commit claim at the
concrete reticle position (1, 0, 2). -/
def c4splat : Splat :=
  { id := 0, source := DEFAULT_URL, position := ⟨0, 1, 0⟩,
    scale := ⟨1, 1, 1⟩, quaternion := idQuat, visible := false }

def c4state : AppState :=
  { hitTestSource := some 1, hitTestSourceRequested := true, pending := [],
    sessionId := 1, inAR := true, controlsEnabled := false,
    reticleVisible := true,
    reticleMatrix := ⟨⟨1, 0, 2⟩, idQuat, ⟨1, 1, 1⟩⟩,
    splat := some c4splat, currentSplatURL := DEFAULT_URL,
    scene := [0], disposed := [], nextAssetId := 1, requestCount := 1 }

theorem select_commits_placement_witness :
    c4state.reticleVisible = true ∧
    (onSelect c4state).splat.map Splat.position = some ⟨1, 0, 2⟩ ∧
    (onSelect c4state).splat.map Splat.visible = some true ∧
    (onSelect c4state).splat.map Splat.quaternion = some c4splat.quaternion := by
  have h := select_commits_placement c4state c4splat rfl rfl
  exact ⟨rfl, h.2.2.1, h.2.1, h.2.2.2⟩

/-- Claim C5: with an invisible reticle, or with no loaded asset, the
select trigger changes nothing at all. -/
theorem select_invalid_noop (s : AppState)
    (h : s.reticleVisible = false ∨ s.splat = none) :
    onSelect s = s := by
  unfold onSelect
  rcases h with h | h
  · rw [h]
  · rw [h]
    cases s.reticleVisible <;> rfl

theorem select_invalid_noop_witness :
    initState.reticleVisible = false ∧ onSelect initState = initState :=
  ⟨rfl, select_invalid_noop initState (Or.inl rfl)⟩

/-- Claim C9: the sessionend handler is idempotent: two consecutive
session-end notifications leave the entire state exactly as one does. -/
theorem sessionend_idempotent (s : AppState) :
    sessionEnd (sessionEnd s) = sessionEnd s := by
  cases s with
  | mk src req pend sid ar ctl rv rm sp url scn disp nid rc =>
    cases sp <;> rfl

/-- Claim C10: an AR frame in which the stored hit-test source is null
leaves the reticle completely untouched: neither its visibility nor its
pose matrix is written, so a previously visible reticle stays visible. -/
theorem null_source_frame_preserves_reticle (hits : List PoseMatrix)
    (s : AppState) (h : s.hitTestSource = none) :
    (render hits s).reticleVisible = s.reticleVisible ∧
    (render hits s).reticleMatrix = s.reticleMatrix := by
  rw [render_no_source hits s h]
  exact ⟨(renderRequest_fields s).2.1, (renderRequest_fields s).2.2.1⟩

/-- A reachable state in which the reticle is visible while the stored
source is null: session A saw a hit, ended (no reticle reset), and
session B has started with its acquisition still unresolved. -/
def c10state : AppState :=
  run initState [Event.sessionStart, Event.frame [], Event.resolve 1,
    Event.frame [demoPose], Event.sessionEnd, Event.sessionStart]

theorem null_source_frame_preserves_reticle_witness :
    c10state.hitTestSource = none ∧ c10state.reticleVisible = true ∧
    (render [] c10state).reticleVisible = true := by
  have h := null_source_frame_preserves_reticle [] c10state (by decide)
  refine ⟨by decide, by decide, ?_⟩
  rw [h.1]
  decide

/-- Claim C3, counterexample: after a session in which the reticle became
visible, the session-end notification resets splat, source and flag but
leaves `reticle.visible = true`, contradicting the claim that all
AR-dependent state, reticle visibility included, returns to its default. -/
theorem sessionend_reticle_counterexample :
    (run initState [Event.sessionStart, Event.frame [], Event.resolve 1,
      Event.frame [demoPose], Event.sessionEnd]).inAR = false ∧
    (run initState [Event.sessionStart, Event.frame [], Event.resolve 1,
      Event.frame [demoPose], Event.sessionEnd]).reticleVisible = true := by
  decide

/-- Claim C3 (amended): after a session-end notification the stored source
is null, the requested flag is false, orbit controls are enabled, and the
asset is visible at default position and scale; the reticle visibility is
not reset by the handler and keeps whatever value it had. -/
theorem sessionend_reset_amended (s : AppState) :
    (sessionEnd s).hitTestSource = none ∧
    (sessionEnd s).hitTestSourceRequested = false ∧
    (sessionEnd s).controlsEnabled = true ∧
    (sessionEnd s).splat = s.splat.map resetSplat ∧
    (sessionEnd s).reticleVisible = s.reticleVisible :=
  ⟨rfl, rfl, rfl, rfl, rfl⟩

/-- Claim C1, counterexample: session A (id 1) issues its acquisition
chain, the session ends, session B (id 2) starts, and only then does A's
chain resolve.  The resolved source is stored even though its session is
gone, while B has not even requested yet (flag still false): the stored
source is governed by A's late resolution, not by B's own request. -/
theorem stale_resolution_stored_counterexample :
    (run initState [Event.sessionStart, Event.frame [], Event.sessionEnd,
      Event.sessionStart, Event.resolve 1]).hitTestSource = some 1 ∧
    (run initState [Event.sessionStart, Event.frame [], Event.sessionEnd,
      Event.sessionStart, Event.resolve 1]).sessionId = 2 ∧
    (run initState [Event.sessionStart, Event.frame [], Event.sessionEnd,
      Event.sessionStart, Event.resolve 1]).hitTestSourceRequested = false := by
  decide

/-- Claim C1 (amended): the resolution callback stores the source
unconditionally: whenever a chain `c` is still pending — including a chain
issued by a session other than the live one — its resolution stores `c` as
the current hit-test source; no session-identity check is performed. -/
theorem resolve_stores_stale (s : AppState) (c : Nat)
    (hc : c ∈ s.pending) (_hstale : c ≠ s.sessionId) :
    (resolveHit c s).hitTestSource = some c ∧
    (resolveHit c s).sessionId = s.sessionId := by
  unfold resolveHit
  rw [if_pos hc]
  exact ⟨rfl, rfl⟩

/-- The state just before session A's chain resolves late: A (id 1) issued
the chain and ended; B (id 2) is live. -/
def c1state : AppState :=
  run initState [Event.sessionStart, Event.frame [], Event.sessionEnd,
    Event.sessionStart]

theorem resolve_stores_stale_witness :
    1 ∈ c1state.pending ∧ 1 ≠ c1state.sessionId ∧
    (resolveHit 1 c1state).hitTestSource = some 1 := by
  have h := resolve_stores_stale c1state 1 (by decide) (by decide)
  exact ⟨by decide, by decide, h.1⟩

/-- Claim C8, counterexample: a load performed while an AR session is
active produces an asset with visible = true; nothing overrides the new
asset's visibility to false in AR mode. -/
theorem load_in_ar_visible_counterexample :
    (run initState [Event.sessionStart, Event.load "m2"]).inAR = true ∧
    (run initState [Event.sessionStart, Event.load "m2"]).splat.map
      Splat.visible = some true := by
  decide

/-- Claim C8 (amended): `loadSplatModel` sets the new asset to position
(0, 1, 0), scale (1, 1, 1) and the constructor default visible = true; the
only visibility override to false is the one the sessionstart handler
applies to the asset loaded at AR entry — a load performed during AR mode
leaves its new asset visible. -/
theorem load_defaults_amended (s : AppState) (url : String) :
    (loadSplatModel url s).splat.map Splat.position = some ⟨0, 1, 0⟩ ∧
    (loadSplatModel url s).splat.map Splat.scale = some ⟨1, 1, 1⟩ ∧
    (loadSplatModel url s).splat.map Splat.visible = some true ∧
    (sessionStart s).splat.map Splat.visible = s.splat.map (fun _ => false) := by
  unfold loadSplatModel sessionStart
  cases s.splat <;> exact ⟨rfl, rfl, rfl, rfl⟩

/-- Claim C6, counterexample: session B never gets a source (it stays null
at B's start and across B's frames), yet the reticle is visible throughout
B — the visibility left over from session A is never cleared.  The three
conjunds sample B at its start, after one frame and after two frames. -/
theorem degraded_reticle_counterexample :
    ((run initState [Event.sessionStart, Event.frame [], Event.resolve 1,
        Event.frame [demoPose], Event.sessionEnd,
        Event.sessionStart]).hitTestSource = none ∧
     (run initState [Event.sessionStart, Event.frame [], Event.resolve 1,
        Event.frame [demoPose], Event.sessionEnd,
        Event.sessionStart]).reticleVisible = true) ∧
    ((run initState [Event.sessionStart, Event.frame [], Event.resolve 1,
        Event.frame [demoPose], Event.sessionEnd, Event.sessionStart,
        Event.frame []]).hitTestSource = none ∧
     (run initState [Event.sessionStart, Event.frame [], Event.resolve 1,
        Event.frame [demoPose], Event.sessionEnd, Event.sessionStart,
        Event.frame []]).reticleVisible = true) ∧
    ((run initState [Event.sessionStart, Event.frame [], Event.resolve 1,
        Event.frame [demoPose], Event.sessionEnd, Event.sessionStart,
        Event.frame [], Event.frame []]).hitTestSource = none ∧
     (run initState [Event.sessionStart, Event.frame [], Event.resolve 1,
        Event.frame [demoPose], Event.sessionEnd, Event.sessionStart,
        Event.frame [], Event.frame []]).reticleVisible = true) := by
  decide

/-- Claim C6 (amended): while the stored source stays null, frames never
query hit-test results and leave both the reticle visibility and the
reticle pose unchanged — so the reticle keeps the value it had when the
session began (false only if it was false then), and the source remains
null across any number of frames. -/
theorem degraded_frames_preserve_reticle (s : AppState)
    (h : s.hitTestSource = none) (frames : List (List PoseMatrix)) :
    (run s (frames.map Event.frame)).hitTestSource = none ∧
    (run s (frames.map Event.frame)).reticleVisible = s.reticleVisible ∧
    (run s (frames.map Event.frame)).reticleMatrix = s.reticleMatrix := by
  induction frames generalizing s with
  | nil => exact ⟨h, rfl, rfl⟩
  | cons f fs ih =>
    have h1 : (render f s).hitTestSource = none := by
      rw [render_no_source f s h]
      exact (renderRequest_fields s).1.trans h
    have h2 := ih (render f s) h1
    have hv : (render f s).reticleVisible = s.reticleVisible := by
      rw [render_no_source f s h]
      exact (renderRequest_fields s).2.1
    have hm : (render f s).reticleMatrix = s.reticleMatrix := by
      rw [render_no_source f s h]
      exact (renderRequest_fields s).2.2.1
    exact ⟨h2.1, h2.2.1.trans hv, h2.2.2.trans hm⟩

/-- Session B of the degraded trace: source null, reticle still visible
from session A. -/
def c6state : AppState :=
  run initState [Event.sessionStart, Event.frame [], Event.resolve 1,
    Event.frame [demoPose], Event.sessionEnd, Event.sessionStart]

theorem degraded_frames_preserve_reticle_witness :
    c6state.hitTestSource = none ∧
    (run c6state ([[], []].map Event.frame)).hitTestSource = none ∧
    (run c6state ([[], []].map Event.frame)).reticleVisible
      = c6state.reticleVisible := by
  have h := degraded_frames_preserve_reticle c6state (by decide) [[], []]
  exact ⟨by decide, h.1, h.2.1⟩

/-- A frame from an already-requested state issues no further request. -/
theorem render_keeps_requested (hits : List PoseMatrix) (s : AppState)
    (h : s.hitTestSourceRequested = true) :
    (render hits s).hitTestSourceRequested = true ∧
    (render hits s).requestCount = s.requestCount := by
  have hr : renderRequest s = s := by
    unfold renderRequest
    rw [h]
    rfl
  unfold render
  rw [hr]
  exact ⟨((renderSample_fields hits s).2.1).trans h,
         (renderSample_fields hits s).2.2.1⟩

/-- The first frame of a session issues the request chain and sets the
requested flag synchronously. -/
theorem render_first_request (hits : List PoseMatrix) (s : AppState)
    (h : s.hitTestSourceRequested = false) :
    (render hits s).hitTestSourceRequested = true ∧
    (render hits s).requestCount = s.requestCount + 1 := by
  have hr : renderRequest s =
      { s with pending := s.pending ++ [s.sessionId],
               requestCount := s.requestCount + 1,
               hitTestSourceRequested := true } := by
    unfold renderRequest
    rw [h]
    rfl
  unfold render
  rw [hr]
  exact ⟨(renderSample_fields hits _).2.1, (renderSample_fields hits _).2.2.1⟩

/-- Once the flag is set, any number of frames issues no request. -/
theorem run_frames_requested (fs : List (List PoseMatrix)) (s : AppState)
    (h : s.hitTestSourceRequested = true) :
    (run s (fs.map Event.frame)).hitTestSourceRequested = true ∧
    (run s (fs.map Event.frame)).requestCount = s.requestCount := by
  induction fs generalizing s with
  | nil => exact ⟨h, rfl⟩
  | cons f fs ih =>
    have h1 := render_keeps_requested f s h
    have h2 := ih (render f s) h1.1
    exact ⟨h2.1, h2.2.trans h1.2⟩

/-- Claim C2: starting from the session's initial unrequested state, any
nonempty sequence of AR frames issues the acquisition chain exactly once
— the request counter rises by exactly one regardless of the number of
frames, and the requested flag is set. -/
theorem request_issued_exactly_once (s : AppState)
    (hs : s.hitTestSourceRequested = false)
    (frames : List (List PoseMatrix)) (hn : frames ≠ []) :
    (run s (frames.map Event.frame)).requestCount = s.requestCount + 1 ∧
    (run s (frames.map Event.frame)).hitTestSourceRequested = true := by
  cases frames with
  | nil => exact absurd rfl hn
  | cons f fs =>
    have h1 := render_first_request f s hs
    have h2 := run_frames_requested fs (render f s) h1.1
    exact ⟨h2.2.trans h1.2, h2.1⟩

theorem request_issued_exactly_once_witness :
    (sessionStart initState).hitTestSourceRequested = false ∧
    (run (sessionStart initState)
      ([[], [], []].map Event.frame)).requestCount
      = (sessionStart initState).requestCount + 1 := by
  have h := request_issued_exactly_once (sessionStart initState) rfl
    [[], [], []] (by decide)
  exact ⟨rfl, h.1⟩

/-- The single-live-asset invariant: one current splat, attached alone to
the scene, its id the most recently allocated one, and the disposed list
holding exactly every earlier id. -/
def assetInv (s : AppState) : Prop :=
  ∃ sp, s.splat = some sp ∧ sp.id + 1 = s.nextAssetId ∧
    s.scene = [sp.id] ∧ s.disposed = List.range sp.id

theorem initState_assetInv : assetInv initState :=
  ⟨{ id := 0, source := DEFAULT_URL, position := ⟨0, 1, 0⟩,
     scale := ⟨1, 1, 1⟩, quaternion := idQuat, visible := true },
   rfl, rfl, rfl, rfl⟩

/-- `render` leaves the asset bookkeeping untouched. -/
theorem render_asset_fields (hits : List PoseMatrix) (s : AppState) :
    (render hits s).splat = s.splat ∧ (render hits s).scene = s.scene ∧
    (render hits s).disposed = s.disposed ∧
    (render hits s).nextAssetId = s.nextAssetId := by
  unfold render
  obtain ⟨q1, q2, q3, q4, q5, q6, q7⟩ := renderRequest_fields s
  obtain ⟨r1, r2, r3, r4, r5, r6, r7⟩ :=
    renderSample_fields hits (renderRequest s)
  exact ⟨r4.trans q4, r5.trans q5, r6.trans q6, r7.trans q7⟩

/-- `loadSplatModel` on a state with a current splat: dispose it, then
attach the fresh instance. -/
theorem loadSplatModel_of_some (url : String) (s : AppState) (sp : Splat)
    (hsp : s.splat = some sp) :
    loadSplatModel url s =
      { s with splat := some { id := s.nextAssetId, source := url,
                               position := ⟨0, 1, 0⟩, scale := ⟨1, 1, 1⟩,
                               quaternion := idQuat, visible := true },
               scene := s.scene.erase sp.id ++ [s.nextAssetId],
               disposed := s.disposed ++ [sp.id],
               nextAssetId := s.nextAssetId + 1,
               currentSplatURL := url } := by
  unfold loadSplatModel
  rw [hsp]

/-- Every event preserves the single-live-asset invariant. -/
theorem step_assetInv (s : AppState) (e : Event) (h : assetInv s) :
    assetInv (step s e) := by
  obtain ⟨sp, hsp, hid, hscene, hdisp⟩ := h
  cases e with
  | frame hits =>
    show assetInv (render hits s)
    obtain ⟨a1, a2, a3, a4⟩ := render_asset_fields hits s
    exact ⟨sp, a1.trans hsp, hid.trans a4.symm, a2.trans hscene,
           a3.trans hdisp⟩
  | inspectFrame => exact ⟨sp, hsp, hid, hscene, hdisp⟩
  | sessionStart =>
    show assetInv (sessionStart s)
    refine ⟨hiddenSplat sp, ?_, hid, hscene, hdisp⟩
    have h2 : (sessionStart s).splat = Option.map hiddenSplat s.splat := rfl
    rw [h2, hsp]
    rfl
  | sessionEnd =>
    show assetInv (sessionEnd s)
    refine ⟨resetSplat sp, ?_, hid, hscene, hdisp⟩
    have h2 : (sessionEnd s).splat = Option.map resetSplat s.splat := rfl
    rw [h2, hsp]
    rfl
  | select =>
    show assetInv (onSelect s)
    unfold onSelect
    rw [hsp]
    cases hv : s.reticleVisible
    · exact ⟨sp, hsp, hid, hscene, hdisp⟩
    · exact ⟨placedSplat s.reticleMatrix sp, rfl, hid, hscene, hdisp⟩
  | load url =>
    show assetInv (loadSplatModel url s)
    rw [loadSplatModel_of_some url s sp hsp]
    refine ⟨_, rfl, rfl, ?_, ?_⟩
    · rw [hscene]
      simp [List.erase_cons_head]
    · rw [hdisp, ← hid, List.range_succ]
  | resolve c =>
    show assetInv (resolveHit c s)
    unfold resolveHit
    split <;> exact ⟨sp, hsp, hid, hscene, hdisp⟩

theorem run_assetInv (es : List Event) (s : AppState) (h : assetInv s) :
    assetInv (run s es) := by
  induction es generalizing s with
  | nil => exact h
  | cons e es ih => exact ih (step s e) (step_assetInv s e h)

/-- Claim C7: after any event sequence from startup — in particular after
any sequence of loads — exactly one asset instance is attached to the
scene (the current one), every earlier instance (ids are allocated
consecutively from 0) has been removed and disposed, and the disposal of
each old instance happened inside the load call that replaced it, before
the replacement was constructed. -/
theorem single_live_asset (es : List Event) :
    ∃ sp, (run initState es).splat = some sp ∧
      (run initState es).scene = [sp.id] ∧
      (run initState es).disposed = List.range sp.id ∧
      sp.id + 1 = (run initState es).nextAssetId := by
  obtain ⟨sp, hsp, hid, hscene, hdisp⟩ :=
    run_assetInv es initState initState_assetInv
  exact ⟨sp, hsp, hscene, hdisp, hid⟩

end WebAR
